import Mathlib

set_option maxRecDepth 40000

/-!
Verification of the file-processing pipeline of the aithena-python-test-task
repository, as implemented in src/aithena_task_solver.py together with the
services it imports (src/services/license_detector.py,
src/services/function_counter.py), the data models
(src/data_models/license_types.py, src/data_models/analysis_models.py) and the
prompt construction of the two LLM backends (src/llm/anthropic_client.py,
src/llm/openai_client.py).

The embedding is shallow: the gateway (LLM client) is a value of a structure
whose fields mirror the LlmClient protocol methods, the file system is a
predicate saying which file writes succeed, and process_file is a pure
function returning the outcome (result record and saved paths, or the
TaskSolverError it raises), the ordered list of gateway calls it makes, and
the ordered list of artifacts it actually writes.
-/

/-- License types, mirroring the enum in src/data_models/license_types.py. -/
inductive LicenseType
  | PERMISSIVE
  | COPYLEFT
  | PROPRIETARY
  | UNKNOWN
  deriving DecidableEq, Repr

/-- Python Enum member .name, as used by save_result_to_json
(result.license_type.name). -/
def LicenseType.name : LicenseType → String
  | .PERMISSIVE => "PERMISSIVE"
  | .COPYLEFT => "COPYLEFT"
  | .PROPRIETARY => "PROPRIETARY"
  | .UNKNOWN => "UNKNOWN"

/-- JSON values as produced by json.loads. Booleans are modeled apart from
integers; Python s bool-is-an-int corner and non-integer numbers are not
modeled because every isinstance(..., int) check in the sources is only ever
exercised by the claims on plain integers, and any non-int value fails those
checks the same way. -/
inductive JsonVal
  | jnull
  | jbool (b : Bool)
  | jint (n : Int)
  | jstr (s : String)
  | jarr (elems : List JsonVal)
  | jobj (fields : List (String × JsonVal))

/-- Python dict .get on the field list of a JSON object: the value of the
last binding of the key (json.loads keeps the last duplicate), or none. -/
def jget (fields : List (String × JsonVal)) (key : String) : Option JsonVal :=
  match fields with
  | [] => none
  | (k, v) :: rest =>
    match jget rest key with
    | some w => some w
    | none => if k = key then some v else none

/-- The single uniform error kind both LLM backends raise on provider failure
(LLMClientError in src/llm; the spec calls it GatewayError). -/
inductive LLMClientError
  | llmClientError
  deriving DecidableEq, Repr

/-- The LlmClient protocol as the solver consumes it. generate_response is
modeled together with the json.loads step every calling service immediately
applies to its raw text: .error is a raised LLMClientError, .ok none a reply
whose text json.loads rejects (JSONDecodeError), .ok (some v) a reply parsing
to v; no service ever inspects the raw text in any other way.
rewrite_to_rust returns its raw text unparsed, as in the sources. -/
structure LlmClient where
  generate_response : String → String → Except LLMClientError (Option JsonVal)
  rewrite_to_rust : String → Except LLMClientError String

/-- Python string slicing s[:n], by characters. -/
def pySlice (s : String) (n : Nat) : String := ⟨s.data.take n⟩

/-- System prompt of LicenseDetector.get_license_type (src/services/license_detector.py). -/
def license_system_prompt : String :=
  "You are an expert in software licensing and copyright law.\nYour task is to analyze code file headers to identify the license type and specific license name.\nYou will categorize licenses into one of these types:\n1. PERMISSIVE - Open source licenses that allow code reuse with minimal restrictions (MIT, Apache, BSD, etc.)\n2. COPYLEFT - Open source licenses that require derivative works to be distributed under the same license (GPL, LGPL, etc.)\n3. PROPRIETARY - Closed source or custom licenses that restrict code reuse\n4. UNKNOWN - If you cannot determine the license type\n\nBe precise and focused in your response. DO NOT provide explanations, just the categorization result.\n"

/-- Text of the LicenseDetector user prompt before the embedded content
(the hole in the source template is file_content[:1000]). -/
def license_prompt_pre : String :=
  "Analyze the following code file header and determine its license type. Focus only on the license\ntext and copyright information.\nRespond ONLY with a JSON object that has two fields:\n1. \"license_type\": Must be one of \"PERMISSIVE\", \"COPYLEFT\", \"PROPRIETARY\", or \"UNKNOWN\"\n2. \"license_name\": The specific license name (e.g., \"MIT License\", \"GNU GPL v3\", \"Proprietary\", \"Unknown License\")\n\nExamples:\n---\nHeader: \n```\n// MIT License\n// \n// Copyright (c) 2020 John Doe\n// \n// Permission is hereby granted, free of charge, to any person obtaining a copy\n// of this software and associated documentation files...\n```\nResponse: \x7b\"license_type\": \"PERMISSIVE\", \"license_name\": \"MIT License\"\x7d\n\n---\nHeader:\n```\n# This program is free software: you can redistribute it and/or modify\n# it under the terms of the GNU General Public License as published by\n# the Free Software Foundation, either version 3 of the License, or\n# (at your option) any later version.\n```\nResponse: \x7b\"license_type\": \"COPYLEFT\", \"license_name\": \"GNU GPL v3\"\x7d\n\n---\nHeader:\n```\n// Copyright (c) 2023 Acme Corp. All rights reserved.\n// Proprietary and confidential.\n// Unauthorized copying of this file is strictly prohibited.\n```\nResponse: \x7b\"license_type\": \"PROPRIETARY\", \"license_name\": \"Proprietary\"\x7d\n\n---\nNow analyze this header:\n```\n"

/-- Text of the same template after the embedded content. -/
def license_prompt_post : String :=
  "  # Only send the first 1000 chars, which should contain the license\n```\n"

/-- The full user prompt of LicenseDetector.get_license_type: the content is
truncated to its first 1000 characters. -/
def license_prompt (file_content : String) : String :=
  license_prompt_pre ++ pySlice file_content 1000 ++ license_prompt_post

/-- System prompt of extract_functions_with_args (src/aithena_task_solver.py). -/
def extract_system_prompt : String :=
  "You are an expert code analyzer specialized in identifying functions in code.\nYour task is to extract all function names and count the number of arguments for each function.\nInclude class methods but exclude built-in special methods (like __init__, __str__, etc.) unless explicitly required.\nBe precise and focus only on the function extraction task.\n"

/-- Text of the extract_functions_with_args user prompt before the embedded
content (the hole in the source template is file_content, untruncated). -/
def extract_prompt_pre : String :=
  "Analyze the following code and extract all function names along with the number of arguments each function takes.\nCount only real parameters, not self or cls for methods.\nInclude standalone functions and class methods but exclude built-in special methods (like __init__, __str__, etc.) unless explicitly asked.\n\nRespond ONLY with a JSON array where each element is an object with two fields:\n1. \"name\": The function name as a string\n2. \"arg_count\": The number of arguments as an integer\n\nExamples:\n---\nCode: \n```python\ndef add(a, b):\n    return a + b\n    \ndef subtract(a, b):\n    return a - b\n```\nResponse: [\x7b\"name\": \"add\", \"arg_count\": 2\x7d, \x7b\"name\": \"subtract\", \"arg_count\": 2\x7d]\n\n---\nCode:\n```python\nclass Calculator:\n    def __init__(self, initial=0):\n        self.value = initial\n        \n    def add(self, a, b):\n        return a + b\n        \n    def subtract(self, a, b):\n        return a - b\n        \ndef multiply(a, b):\n    return a * b\n```\nResponse: [\x7b\"name\": \"add\", \"arg_count\": 2\x7d, \x7b\"name\": \"subtract\", \"arg_count\": 2\x7d, \x7b\"name\": \"multiply\", \"arg_count\": 2\x7d]\n\n---\nNow extract the functions from this code:\n```\n"

/-- Text of the same template after the embedded content. -/
def extract_prompt_post : String :=
  "\n```\n"

/-- The full user prompt of extract_functions_with_args: the whole content is
embedded. -/
def extract_prompt (file_content : String) : String :=
  extract_prompt_pre ++ file_content ++ extract_prompt_post

/-- System prompt of extract_copyright_holder (src/aithena_task_solver.py). -/
def copyright_system_prompt : String :=
  "You are an expert in software licensing and copyright law.\nYour task is to extract the copyright holder name from code file headers.\nFocus only on the copyright information. Be precise and return only the name of the copyright holder.\n"

/-- Text of the extract_copyright_holder user prompt before the embedded
content (the hole in the source template is file_content[:500]). -/
def copyright_prompt_pre : String :=
  "Analyze the following code file header and extract the copyright holder name.\nRespond ONLY with a JSON object with a single field \"copyright_holder\" which contains the name of the copyright holder.\nIf no copyright holder is specified, use \"Unknown\".\n\nExamples:\n---\nHeader: \n```\n// MIT License\n// \n// Copyright (c) 2020 John Doe\n// \n// Permission is hereby granted...\n```\nResponse: \x7b\"copyright_holder\": \"John Doe\"\x7d\n\n---\nHeader:\n```\n# Copyright 2023 Google LLC\n#\n# Licensed under the Apache License...\n```\nResponse: \x7b\"copyright_holder\": \"Google LLC\"\x7d\n\n---\nNow extract the copyright holder from this file:\n```\n"

/-- Text of the same template after the embedded content. -/
def copyright_prompt_post : String :=
  "  # Only send the first 500 chars, which should contain the copyright\n```\n"

/-- The full user prompt of extract_copyright_holder: the content is truncated
to its first 500 characters. -/
def copyright_prompt (file_content : String) : String :=
  copyright_prompt_pre ++ pySlice file_content 500 ++ copyright_prompt_post

/-- System prompt of FunctionCounter.count_functions (src/services/function_counter.py). -/
def count_system_prompt : String :=
  "You are an expert code analyzer specialized in identifying functions in code.\nYour task is to count the exact number of function definitions in the provided code.\nFocus only on function counting. Be precise and return only the count as a number.\n"

/-- Text of the FunctionCounter user prompt before the embedded content
(the hole in the source template is file_content, untruncated). -/
def count_prompt_pre : String :=
  "Analyze the following code and count the number of function definitions it contains.\nRespond ONLY with a JSON object with a single field \"function_count\" which contains the integer number of functions found.\n\nExamples:\n---\nCode: \n```python\ndef add(a, b):\n    return a + b\n    \ndef subtract(a, b):\n    return a - b\n```\nResponse: \x7b\"function_count\": 2\x7d\n\n---\nCode:\n```python\nclass Calculator:\n    def add(self, a, b):\n        return a + b\n        \n    def subtract(self, a, b):\n        return a - b\n        \ndef multiply(a, b):\n    return a * b\n```\nResponse: \x7b\"function_count\": 3\x7d\n\n---\nCode:\n```python\nimport math\n\n# No functions here\nx = 10\ny = 20\nresult = x + y\n```\nResponse: \x7b\"function_count\": 0\x7d\n\n---\nNow count the functions in this code:\n```\n"

/-- Text of the same template after the embedded content. -/
def count_prompt_post : String :=
  "\n```\n"

/-- The full user prompt of FunctionCounter.count_functions: the whole content
is embedded. -/
def count_prompt (file_content : String) : String :=
  count_prompt_pre ++ file_content ++ count_prompt_post

/-- System prompt of rewrite_to_rust, identical in AnthropicClient and
OpenAIClient (src/llm). -/
def rust_system_prompt : String :=
  "You are an expert programmer in both Python and Rust. \n        Your task is to convert Python code to equivalent Rust code.\n        Produce clean, idiomatic Rust that captures the same functionality as the original Python.\n        Include appropriate error handling and comments in the Rust code.\n        The Rust code should be complete, valid, and ready to compile."

/-- Text of the rewrite_to_rust user prompt before the embedded content
(the hole in the source template is python_code, untruncated). -/
def rust_prompt_pre : String :=
  "Please convert the following Python code to equivalent Rust code:\n\n```python\n"

/-- Text of the same template after the embedded content. -/
def rust_prompt_post : String :=
  "\n```\n\nProvide only the Rust code, without any explanations."

/-- The translation prompt built identically by AnthropicClient.rewrite_to_rust
and OpenAIClient.rewrite_to_rust: the whole python_code is embedded. -/
def rust_prompt (python_code : String) : String :=
  rust_prompt_pre ++ python_code ++ rust_prompt_post

/-- LicenseDetector.get_license_type (src/services/license_detector.py):
a raised LLMClientError, an unparseable reply, a non-dict reply (whose .get
raises AttributeError into the outer except) and an unrecognized
license_type string all degrade to (UNKNOWN, "Unknown License"); the
license_name value is returned exactly as found in the reply. -/
def get_license_type (client : LlmClient) (file_content : String) :
    LicenseType × JsonVal :=
  match client.generate_response (license_prompt file_content) license_system_prompt with
  | .error _ => (.UNKNOWN, .jstr "Unknown License")
  | .ok none => (.UNKNOWN, .jstr "Unknown License")
  | .ok (some (.jobj fields)) =>
    let license_type_str := (jget fields "license_type").getD (.jstr "UNKNOWN")
    let license_name := (jget fields "license_name").getD (.jstr "Unknown License")
    let license_type : LicenseType :=
      match license_type_str with
      | .jstr "PERMISSIVE" => .PERMISSIVE
      | .jstr "COPYLEFT" => .COPYLEFT
      | .jstr "PROPRIETARY" => .PROPRIETARY
      | _ => .UNKNOWN
    (license_type, license_name)
  | .ok (some _) => (.UNKNOWN, .jstr "Unknown License")

/-- extract_copyright_holder (src/aithena_task_solver.py): every failure mode
(LLMClientError, JSONDecodeError, non-dict reply) degrades to "Unknown"; the
copyright_holder value is returned exactly as found in the reply. -/
def extract_copyright_holder (client : LlmClient) (file_content : String) : JsonVal :=
  match client.generate_response (copyright_prompt file_content) copyright_system_prompt with
  | .error _ => .jstr "Unknown"
  | .ok none => .jstr "Unknown"
  | .ok (some (.jobj fields)) => (jget fields "copyright_holder").getD (.jstr "Unknown")
  | .ok (some _) => .jstr "Unknown"

/-- The exception type of FunctionCounter (src/services/function_counter.py). -/
inductive FunctionCounterError
  | functionCounterError
  deriving DecidableEq, Repr

/-- FunctionCounter.count_functions (src/services/function_counter.py): unlike
the license and copyright services it raises FunctionCounterError on every
failure mode (LLMClientError, JSONDecodeError, missing field, non-int field,
negative count, non-dict reply) instead of degrading to a default. -/
def count_functions (client : LlmClient) (file_content : String) :
    Except FunctionCounterError Int :=
  match client.generate_response (count_prompt file_content) count_system_prompt with
  | .error _ => .error .functionCounterError
  | .ok none => .error .functionCounterError
  | .ok (some (.jobj fields)) =>
    match jget fields "function_count" with
    | some (.jint n) => if n < 0 then .error .functionCounterError else .ok n
    | _ => .error .functionCounterError
  | .ok (some _) => .error .functionCounterError

/-- The exception type of the solver (src/aithena_task_solver.py). -/
inductive TaskSolverError
  | taskSolverError
  deriving DecidableEq, Repr

/-- A FunctionInfo dataclass value (src/aithena_task_solver.py). -/
structure FunctionInfo where
  name : String
  arg_count : Int
  deriving DecidableEq, Repr

/-- The validation loop of extract_functions_with_args over the parsed JSON
array: every element must be a dict with a string "name" and a non-negative
int "arg_count"; the first malformed element fails the whole list. -/
def parse_function_info_list : List JsonVal → Except TaskSolverError (List FunctionInfo)
  | [] => .ok []
  | .jobj fields :: rest =>
    match jget fields "name", jget fields "arg_count" with
    | some (.jstr name), some (.jint arg_count) =>
      if arg_count < 0 then .error .taskSolverError
      else
        match parse_function_info_list rest with
        | .ok fs => .ok (⟨name, arg_count⟩ :: fs)
        | .error e => .error e
    | _, _ => .error .taskSolverError
  | _ :: _ => .error .taskSolverError

/-- extract_functions_with_args (src/aithena_task_solver.py): raises
TaskSolverError on every failure mode (LLMClientError, JSONDecodeError,
non-list reply, malformed element) instead of degrading to a default. -/
def extract_functions_with_args (client : LlmClient) (file_content : String) :
    Except TaskSolverError (List FunctionInfo) :=
  match client.generate_response (extract_prompt file_content) extract_system_prompt with
  | .error _ => .error .taskSolverError
  | .ok none => .error .taskSolverError
  | .ok (some (.jarr items)) => parse_function_info_list items
  | .ok (some _) => .error .taskSolverError

/-- Splitting a character list at every slash, for Path name computation. -/
def split_slash : List Char → List (List Char)
  | [] => [[]]
  | c :: rest =>
    let r := split_slash rest
    if c = '/' then [] :: r
    else
      match r with
      | [] => [[c]]
      | h :: t => (c :: h) :: t

/-- pathlib Path(p).name (POSIX): the last path component, with empty and
single dot components dropped as pathlib does. -/
def path_name (p : String) : String :=
  ⟨((split_slash p.data).filter (fun c => !c.isEmpty && !(c == ['.']))).getLastD []⟩

/-- The index of the last dot in a character list, if any. -/
def rfind_dot : List Char → Option Nat
  | [] => none
  | c :: rest =>
    match rfind_dot rest with
    | some j => some (j + 1)
    | none => if c = '.' then some 0 else none

/-- pathlib Path(p).stem: the name without its suffix; as in CPython the
suffix is the part from the last dot when that dot is neither the first nor
the last character of the name. -/
def path_stem (p : String) : String :=
  let name := path_name p
  match rfind_dot name.data with
  | some i => if 0 < i ∧ i < name.data.length - 1 then ⟨name.data.take i⟩ else name
  | none => name

/-- os.path.join(d, name) for the relative names the solver builds (POSIX). -/
def os_path_join (d name : String) : String :=
  if d = "" then name
  else if d.data.getLast? = some '/' then d ++ name
  else d ++ "/" ++ name

/-- The FileAnalysisResult dataclass of src/aithena_task_solver.py (the record
the pipeline accumulates; it has no validation of its own).
copyright_holder and license_name hold whatever JSON value the services
returned, as the Python dataclass does. -/
structure FileAnalysisResult where
  file_name : String
  copyright_holder : JsonVal
  license_name : JsonVal
  license_type : LicenseType
  function_count : Option Int := none
  functions : Option (List FunctionInfo) := none
  rust_code : Option String := none

/-- The dict save_result_to_json serializes: the four license/copyright
fields always, then function_count and functions only when set; rust_code is
never serialized. -/
def result_dict (result : FileAnalysisResult) : List (String × JsonVal) :=
  [("file_name", .jstr result.file_name),
   ("copyright_holder", result.copyright_holder),
   ("license_name", result.license_name),
   ("license_type", .jstr result.license_type.name)]
  ++ (match result.function_count with
      | some n => [("function_count", JsonVal.jint n)]
      | none => [])
  ++ (match result.functions with
      | some fs =>
        [("functions", JsonVal.jarr (fs.map fun f =>
          JsonVal.jobj [("name", .jstr f.name), ("arg_count", .jint f.arg_count)]))]
      | none => [])

/-- The file system as the pipeline sees it: whether an open-and-write at a
path succeeds. Directory creation (mkdir parents=True exist_ok=True) is
assumed to succeed; a mkdir failure would surface exactly like a failed write
(a TaskSolverError for that file), and no claim distinguishes the two. -/
structure Fs where
  write_ok : String → Bool

/-- The content of one artifact the pipeline writes. -/
inductive ArtifactContent
  | jsonDict (fields : List (String × JsonVal))
  | text (s : String)

/-- One artifact written by the pipeline: its path and its content. -/
structure Artifact where
  path : String
  content : ArtifactContent

/-- One observable call to the gateway. -/
inductive GatewayCall
  | generate (prompt : String) (system_prompt : String)
  | rewriteRust (python_code : String)

/-- The full observable behavior of one process_file run: the returned value
or raised error, the ordered gateway calls, and the ordered artifact writes
that actually happened. -/
structure RunOutcome where
  outcome : Except TaskSolverError (FileAnalysisResult × List String)
  calls : List GatewayCall
  writes : List Artifact

/-- The path of the primary artifact: output_dir/{stem}_analysis.json. -/
def analysis_json_path (output_dir file_name : String) : String :=
  os_path_join output_dir (path_stem file_name ++ "_analysis.json")

/-- The path of the translation artifact: output_dir/{stem}_rust_functions.rs. -/
def rust_code_path (output_dir file_name : String) : String :=
  os_path_join output_dir (path_stem file_name ++ "_rust_functions.rs")

/-- save_result_to_json (src/aithena_task_solver.py): writes the serialized
dict to {stem}_analysis.json, raising TaskSolverError when the write fails. -/
def save_result_to_json (fs : Fs) (result : FileAnalysisResult) (output_dir : String) :
    Except TaskSolverError (String × Artifact) :=
  let output_file := analysis_json_path output_dir result.file_name
  if fs.write_ok output_file then .ok (output_file, ⟨output_file, .jsonDict (result_dict result)⟩)
  else .error .taskSolverError

/-- save_rust_code (src/aithena_task_solver.py): writes the translated code to
{stem}_rust_functions.rs, raising TaskSolverError when the write fails. -/
def save_rust_code (fs : Fs) (file_name rust_code output_dir : String) :
    Except TaskSolverError (String × Artifact) :=
  let output_file := rust_code_path output_dir file_name
  if fs.write_ok output_file then .ok (output_file, ⟨output_file, .text rust_code⟩)
  else .error .taskSolverError

/-- The gateway call LicenseDetector.get_license_type makes. -/
def license_call (file_content : String) : GatewayCall :=
  .generate (license_prompt file_content) license_system_prompt

/-- The gateway call extract_copyright_holder makes. -/
def copyright_call (file_content : String) : GatewayCall :=
  .generate (copyright_prompt file_content) copyright_system_prompt

/-- The gateway call FunctionCounter.count_functions makes. -/
def count_call (file_content : String) : GatewayCall :=
  .generate (count_prompt file_content) count_system_prompt

/-- The gateway call extract_functions_with_args makes. -/
def extract_call (file_content : String) : GatewayCall :=
  .generate (extract_prompt file_content) extract_system_prompt

/-- The gateway call process_file makes for translation. -/
def rust_call (file_content : String) : GatewayCall :=
  .rewriteRust file_content

/-- The unconditional tail of process_file: the save_result_to_json call made
on every branch that reaches it, appending the saved path and the written
artifact, or turning a write failure into the raised TaskSolverError. -/
def finish_with_json (fs : Fs) (output_dir : String) (result : FileAnalysisResult)
    (calls : List GatewayCall) (writes : List Artifact) (saved_files : List String) :
    RunOutcome :=
  match save_result_to_json fs result output_dir with
  | .ok (p, a) => ⟨.ok (result, saved_files ++ [p]), calls, writes ++ [a]⟩
  | .error e => ⟨.error e, calls, writes⟩

/-- process_file (src/aithena_task_solver.py), with output_dir hardcoded to
"results" as in the source. Its outer try re-raises every escaping exception
as TaskSolverError, so a FunctionCounterError from counting, a TaskSolverError
from signature extraction, an LLMClientError from rewrite_to_rust and a
TaskSolverError from either save all surface as TaskSolverError; license
detection and copyright extraction cannot raise. -/
def process_file (client : LlmClient) (fs : Fs) (file_name file_content : String) :
    RunOutcome :=
  let output_dir := "results"
  let lt_ln := get_license_type client file_content
  let copyright_holder := extract_copyright_holder client file_content
  let result0 : FileAnalysisResult :=
    { file_name := file_name, copyright_holder := copyright_holder,
      license_name := lt_ln.2, license_type := lt_ln.1 }
  let base_calls := [license_call file_content, copyright_call file_content]
  match lt_ln.1 with
  | .PERMISSIVE =>
    match extract_functions_with_args client file_content with
    | .error _ => ⟨.error .taskSolverError, base_calls ++ [extract_call file_content], []⟩
    | .ok functions =>
      finish_with_json fs output_dir { result0 with functions := some functions }
        (base_calls ++ [extract_call file_content]) [] []
  | .COPYLEFT =>
    let calls1 := base_calls ++ [count_call file_content]
    match count_functions client file_content with
    | .error _ => ⟨.error .taskSolverError, calls1, []⟩
    | .ok function_count =>
      let result1 := { result0 with function_count := some function_count }
      if function_count > 2 then
        match extract_functions_with_args client file_content with
        | .error _ => ⟨.error .taskSolverError, calls1 ++ [extract_call file_content], []⟩
        | .ok functions =>
          finish_with_json fs output_dir { result1 with functions := some functions }
            (calls1 ++ [extract_call file_content]) [] []
      else
        match client.rewrite_to_rust file_content with
        | .error _ => ⟨.error .taskSolverError, calls1 ++ [rust_call file_content], []⟩
        | .ok rust_code =>
          let result2 := { result1 with rust_code := some rust_code }
          match save_rust_code fs file_name rust_code output_dir with
          | .error _ => ⟨.error .taskSolverError, calls1 ++ [rust_call file_content], []⟩
          | .ok (p, a) =>
            finish_with_json fs output_dir result2
              (calls1 ++ [rust_call file_content]) [a] [p]
  | .PROPRIETARY => finish_with_json fs output_dir result0 base_calls [] []
  | .UNKNOWN => finish_with_json fs output_dir result0 base_calls [] []

namespace analysis_models

/-- The pydantic ValidationError kind raised by the models in
src/data_models/analysis_models.py. -/
inductive ValidationError
  | validationError
  deriving DecidableEq, Repr

/-- The pydantic FunctionInfo model (src/data_models/analysis_models.py). -/
structure FunctionInfo where
  name : String
  arg_count : Int
  deriving DecidableEq, Repr

/-- Constructing the pydantic FunctionInfo: the Field(ge=0) constraint on
arg_count and the validate_name field validator (name must not be blank;
Python checks not value.strip(), i.e. the name is all whitespace). -/
def mk_FunctionInfo (name : String) (arg_count : Int) :
    Except ValidationError FunctionInfo :=
  if arg_count < 0 then .error .validationError
  else if name.data.all (fun c => c.isWhitespace) then .error .validationError
  else .ok ⟨name, arg_count⟩

/-- The pydantic FileAnalysisResult model (src/data_models/analysis_models.py),
distinct from the dataclass of the same name in src/aithena_task_solver.py. -/
structure FileAnalysisResult where
  file_name : String
  copyright_holder : String
  license_name : String
  license_type : LicenseType
  function_count : Option Int
  functions : Option (List FunctionInfo)

/-- Constructing the pydantic FileAnalysisResult: the Field(ge=0) constraint
on function_count, then the validate_functions_count model validator, which
raises when both function_count and functions are present and
len(functions) differs from function_count. -/
def mk_FileAnalysisResult (file_name copyright_holder license_name : String)
    (license_type : LicenseType) (function_count : Option Int)
    (functions : Option (List FunctionInfo)) :
    Except ValidationError FileAnalysisResult :=
  match function_count, functions with
  | some n, some fs =>
    if n < 0 then .error .validationError
    else if (fs.length : Int) ≠ n then .error .validationError
    else .ok ⟨file_name, copyright_holder, license_name, license_type, some n, some fs⟩
  | some n, none =>
    if n < 0 then .error .validationError
    else .ok ⟨file_name, copyright_holder, license_name, license_type, some n, none⟩
  | none, fns =>
    .ok ⟨file_name, copyright_holder, license_name, license_type, none, fns⟩

end analysis_models

/-- True exactly when an Except is a success, as a Boolean. -/
def except_ok {ε α : Type} (e : Except ε α) : Bool :=
  match e with
  | .ok _ => true
  | .error _ => false

/-- A gateway stub that fails every call: End-to-end scenario C of the spec. -/
def failing_client : LlmClient :=
  { generate_response := fun _ _ => .error .llmClientError,
    rewrite_to_rust := fun _ => .error .llmClientError }

/-- The same all-failing gateway built through a dispatching wrapper; used to
instantiate determinism statements with two extensionally equal clients. -/
def stub_client (license_reply copyright_reply count_reply extract_reply :
    Except LLMClientError (Option JsonVal))
    (rust_reply : Except LLMClientError String) : LlmClient :=
  { generate_response := fun _ s =>
      if s = license_system_prompt then license_reply
      else if s = copyright_system_prompt then copyright_reply
      else if s = count_system_prompt then count_reply
      else extract_reply,
    rewrite_to_rust := fun _ => rust_reply }

/-- A file system on which every write succeeds. -/
def fs_ok : Fs := ⟨fun _ => true⟩

/-- Whether everything process_file attempts between copyright extraction and
the final save_result_to_json call succeeds for this client and file system:
trivially true off the PERMISSIVE/COPYLEFT branches, and otherwise the
success of the extraction, counting, translation and rust-write steps the
taken branch performs. -/
def branch_steps_ok (client : LlmClient) (fs : Fs) (file_name file_content : String) :
    Bool :=
  match (get_license_type client file_content).1 with
  | .PERMISSIVE => except_ok (extract_functions_with_args client file_content)
  | .COPYLEFT =>
    match count_functions client file_content with
    | .error _ => false
    | .ok n =>
      if n > 2 then except_ok (extract_functions_with_args client file_content)
      else except_ok (client.rewrite_to_rust file_content)
           && fs.write_ok (rust_code_path "results" file_name)
  | .PROPRIETARY => true
  | .UNKNOWN => true

/-- The all-failing gateway built through the dispatching wrapper; it is
extensionally, but not syntactically, the same client as failing_client. -/
def failing_stub_client : LlmClient :=
  stub_client (.error .llmClientError) (.error .llmClientError)
    (.error .llmClientError) (.error .llmClientError) (.error .llmClientError)

/-- The record process_file initializes right after license detection and
copyright extraction, before any branch work. -/
def base_record (client : LlmClient) (file_name file_content : String) :
    FileAnalysisResult :=
  { file_name := file_name,
    copyright_holder := extract_copyright_holder client file_content,
    license_name := (get_license_type client file_content).2,
    license_type := (get_license_type client file_content).1 }

/-- A gateway stub classifying the file PERMISSIVE and failing every other
call, so that signature extraction raises. -/
def c1_client : LlmClient :=
  stub_client
    (.ok (some (.jobj [("license_type", .jstr "PERMISSIVE"),
                       ("license_name", .jstr "MIT License")])))
    (.ok (some (.jobj [("copyright_holder", .jstr "John Doe")])))
    (.error .llmClientError) (.error .llmClientError) (.error .llmClientError)

/-- A gateway stub for the COPYLEFT translation branch: license COPYLEFT,
count 2, translation succeeding. -/
def c3_client : LlmClient :=
  stub_client
    (.ok (some (.jobj [("license_type", .jstr "COPYLEFT"),
                       ("license_name", .jstr "GNU GPL v3")])))
    (.ok (some (.jobj [("copyright_holder", .jstr "Elon Musk")])))
    (.ok (some (.jobj [("function_count", .jint 2)])))
    (.error .llmClientError)
    (.ok "fn foo() -> i32")

/-- A gateway stub for the PERMISSIVE branch with a successful one-element
signature extraction. -/
def c4_client : LlmClient :=
  stub_client
    (.ok (some (.jobj [("license_type", .jstr "PERMISSIVE"),
                       ("license_name", .jstr "MIT License")])))
    (.ok (some (.jobj [("copyright_holder", .jstr "Brendan Eich")])))
    (.error .llmClientError)
    (.ok (some (.jarr [.jobj [("name", .jstr "hello"), ("arg_count", .jint 1)]])))
    (.error .llmClientError)

/-- A gateway stub for the PERMISSIVE branch whose signature extraction
fails. -/
def c4_fail_client : LlmClient :=
  stub_client
    (.ok (some (.jobj [("license_type", .jstr "PERMISSIVE"),
                       ("license_name", .jstr "MIT License")])))
    (.ok (some (.jobj [("copyright_holder", .jstr "Brendan Eich")])))
    (.error .llmClientError) (.error .llmClientError) (.error .llmClientError)

/-- A gateway stub for the COPYLEFT extraction branch: license COPYLEFT,
count 4, two extracted signatures (End-to-end scenario B of the spec). -/
def c5_client : LlmClient :=
  stub_client
    (.ok (some (.jobj [("license_type", .jstr "COPYLEFT"),
                       ("license_name", .jstr "GNU GPL v3")])))
    (.ok (some (.jobj [("copyright_holder", .jstr "Guido Musk")])))
    (.ok (some (.jobj [("function_count", .jint 4)])))
    (.ok (some (.jarr [.jobj [("name", .jstr "foo"), ("arg_count", .jint 0)],
                       .jobj [("name", .jstr "bar"), ("arg_count", .jint 1)]])))
    (.error .llmClientError)

/-- A gateway stub for the COPYLEFT extraction branch reporting a count of 5
while extracting a single signature, exhibiting the count/length mismatch. -/
def c7_client : LlmClient :=
  stub_client
    (.ok (some (.jobj [("license_type", .jstr "COPYLEFT"),
                       ("license_name", .jstr "GNU GPL v3")])))
    (.ok (some (.jobj [("copyright_holder", .jstr "John Doe")])))
    (.ok (some (.jobj [("function_count", .jint 5)])))
    (.ok (some (.jarr [.jobj [("name", .jstr "foo"), ("arg_count", .jint 0)]])))
    (.error .llmClientError)

/-- C8: for every input file content, the content embedded in the gateway
prompt is truncated per service: at most the first 1000 characters for
license detection (exactly the first 1000) and for copyright extraction
(exactly the first 500, a prefix of the first 1000), and the full content for
function counting, signature extraction, and translation (both in the prompt
the backends build and in the argument process_file hands rewrite_to_rust). -/
theorem C8_prompt_truncation :
    ∀ file_content : String,
      license_prompt file_content =
        license_prompt_pre ++ pySlice file_content 1000 ++ license_prompt_post ∧
      (pySlice file_content 1000).data <+: file_content.data ∧
      (pySlice file_content 1000).data.length ≤ 1000 ∧
      copyright_prompt file_content =
        copyright_prompt_pre ++ pySlice file_content 500 ++ copyright_prompt_post ∧
      (pySlice file_content 500).data <+: file_content.data ∧
      (pySlice file_content 500).data.length ≤ 1000 ∧
      count_prompt file_content = count_prompt_pre ++ file_content ++ count_prompt_post ∧
      extract_prompt file_content = extract_prompt_pre ++ file_content ++ extract_prompt_post ∧
      rust_prompt file_content = rust_prompt_pre ++ file_content ++ rust_prompt_post ∧
      rust_call file_content = GatewayCall.rewriteRust file_content := by
  intro c
  refine ⟨rfl, List.take_prefix 1000 c.data, ?_, rfl, List.take_prefix 500 c.data, ?_,
    rfl, rfl, rfl, rfl⟩
  · show (c.data.take 1000).length ≤ 1000
    rw [List.length_take]
    omega
  · show (c.data.take 500).length ≤ 1000
    rw [List.length_take]
    omega

/-- C10: the serialized analysis dict has exactly the keys file_name,
copyright_holder, license_name, license_type, plus function_count and
functions when set; it never depends on the rust_code field of the record, so
translated code is never emitted into the analysis JSON. -/
theorem C10_analysis_json_shape :
    ∀ (r : FileAnalysisResult) (s : Option String),
      (result_dict r).map Prod.fst =
        ["file_name", "copyright_holder", "license_name", "license_type"]
          ++ (match r.function_count with | some _ => ["function_count"] | none => [])
          ++ (match r.functions with | some _ => ["functions"] | none => []) ∧
      result_dict { r with rust_code := s } = result_dict r := by
  rintro ⟨fn, ch, ln, lt, fc, fns, rc⟩ s
  cases fc <;> cases fns <;> simp [result_dict]

/-- C9: process_file is a pure function of the gateway response function, the
file system, the file name and the content: two gateways answering every
prompt identically produce identical runs, so with a deterministic gateway
two runs on identical content yield identical analysis artifacts. -/
theorem C9_deterministic_gateway :
    ∀ (client1 client2 : LlmClient) (fs : Fs) (file_name file_content : String),
      (∀ prompt system_prompt,
          client1.generate_response prompt system_prompt =
            client2.generate_response prompt system_prompt) →
      (∀ python_code,
          client1.rewrite_to_rust python_code = client2.rewrite_to_rust python_code) →
      process_file client1 fs file_name file_content =
        process_file client2 fs file_name file_content := by
  intro c1 c2 fs n cont h1 h2
  have hc : c1 = c2 := by
    cases c1
    cases c2
    congr 1
    · funext p s
      exact h1 p s
    · funext code
      exact h2 code
  rw [hc]

/-- Witness for C9: the two extensionally equal all-failing gateways produce
the same run on a concrete file. -/
theorem C9_deterministic_gateway_witness :
    process_file failing_client fs_ok "a.py" "x" =
      process_file failing_stub_client fs_ok "a.py" "x" :=
  C9_deterministic_gateway failing_client failing_stub_client fs_ok "a.py" "x"
    (fun _p s => by simp [failing_client, failing_stub_client, stub_client])
    (fun _code => rfl)


/-- C2: when the detected license type is PROPRIETARY or UNKNOWN (and the
primary write succeeds), process_file makes no counting, extraction or
translation call, writes only the {stem}_analysis.json artifact, raises
nothing, and the record and its serialized dict carry only the file_name,
copyright_holder, license_name and license_type fields; in particular a
gateway failing every call yields UNKNOWN / "Unknown License" / "Unknown". -/
theorem C2_proprietary_unknown_branch :
    (∀ (client : LlmClient) (fs : Fs) (file_name file_content : String),
      ((get_license_type client file_content).1 = .PROPRIETARY ∨
        (get_license_type client file_content).1 = .UNKNOWN) →
      fs.write_ok (analysis_json_path "results" file_name) = true →
      process_file client fs file_name file_content =
        ⟨.ok (base_record client file_name file_content,
              [analysis_json_path "results" file_name]),
         [license_call file_content, copyright_call file_content],
         [⟨analysis_json_path "results" file_name,
           .jsonDict (result_dict (base_record client file_name file_content))⟩]⟩ ∧
      (base_record client file_name file_content).function_count = none ∧
      (base_record client file_name file_content).functions = none ∧
      (base_record client file_name file_content).rust_code = none ∧
      (result_dict (base_record client file_name file_content)).map Prod.fst =
        ["file_name", "copyright_holder", "license_name", "license_type"]) ∧
    (∀ (fs : Fs) (file_name file_content : String),
      fs.write_ok (analysis_json_path "results" file_name) = true →
      process_file failing_client fs file_name file_content =
        ⟨.ok ({ file_name := file_name, copyright_holder := .jstr "Unknown",
                license_name := .jstr "Unknown License", license_type := .UNKNOWN },
              [analysis_json_path "results" file_name]),
         [license_call file_content, copyright_call file_content],
         [⟨analysis_json_path "results" file_name,
           .jsonDict [("file_name", .jstr file_name),
                      ("copyright_holder", .jstr "Unknown"),
                      ("license_name", .jstr "Unknown License"),
                      ("license_type", .jstr "UNKNOWN")]⟩]⟩) := by
  constructor
  · intro client fs file_name file_content h hw
    refine ⟨?_, rfl, rfl, rfl, by simp [result_dict, base_record]⟩
    rcases h with h | h <;>
      simp [process_file, h, base_record, finish_with_json, save_result_to_json, hw]
  · intro fs file_name file_content hw
    have hlt : get_license_type failing_client file_content =
        (.UNKNOWN, .jstr "Unknown License") := rfl
    have hch : extract_copyright_holder failing_client file_content = .jstr "Unknown" := rfl
    simp [process_file, hlt, hch, finish_with_json, save_result_to_json, hw,
      result_dict, LicenseType.name]

/-- Witness for C2: the all-failing gateway on a concrete file, with every
write succeeding. -/
theorem C2_proprietary_unknown_branch_witness :
    process_file failing_client fs_ok "a.py" "x" =
      ⟨.ok ({ file_name := "a.py", copyright_holder := .jstr "Unknown",
              license_name := .jstr "Unknown License", license_type := .UNKNOWN },
            [analysis_json_path "results" "a.py"]),
       [license_call "x", copyright_call "x"],
       [⟨analysis_json_path "results" "a.py",
         .jsonDict [("file_name", .jstr "a.py"),
                    ("copyright_holder", .jstr "Unknown"),
                    ("license_name", .jstr "Unknown License"),
                    ("license_type", .jstr "UNKNOWN")]⟩]⟩ :=
  C2_proprietary_unknown_branch.2 fs_ok "a.py" "x" rfl

/-- C3: on a COPYLEFT file whose count succeeds with n ≤ 2 and whose
translation succeeds (and the writes succeed), process_file invokes
translation and writes exactly one text artifact, at
results/{stem}_rust_functions.rs, plus the analysis JSON; no functions-JSON
artifact exists on that branch and the count is recorded in the record. For a
count > 2 it calls signature extraction instead and never calls translation. -/
theorem C3_copyleft_translation_branch :
    (∀ (client : LlmClient) (fs : Fs) (file_name file_content : String)
        (ln : JsonVal) (n : Int) (rust : String),
      get_license_type client file_content = (.COPYLEFT, ln) →
      count_functions client file_content = .ok n →
      n ≤ 2 →
      client.rewrite_to_rust file_content = .ok rust →
      fs.write_ok (rust_code_path "results" file_name) = true →
      fs.write_ok (analysis_json_path "results" file_name) = true →
      process_file client fs file_name file_content =
        ⟨.ok ({ base_record client file_name file_content with
                  function_count := some n, rust_code := some rust },
              [rust_code_path "results" file_name, analysis_json_path "results" file_name]),
         [license_call file_content, copyright_call file_content, count_call file_content,
          rust_call file_content],
         [⟨rust_code_path "results" file_name, .text rust⟩,
          ⟨analysis_json_path "results" file_name,
           .jsonDict (result_dict
             { base_record client file_name file_content with
                 function_count := some n, rust_code := some rust })⟩]⟩ ∧
      rust_code_path "results" file_name =
        os_path_join "results" (path_stem file_name ++ "_rust_functions.rs")) ∧
    (∀ (client : LlmClient) (fs : Fs) (file_name file_content : String)
        (ln : JsonVal) (n : Int),
      get_license_type client file_content = (.COPYLEFT, ln) →
      count_functions client file_content = .ok n →
      n > 2 →
      (process_file client fs file_name file_content).calls =
        [license_call file_content, copyright_call file_content, count_call file_content,
         extract_call file_content] ∧
      ∀ code, GatewayCall.rewriteRust code ∉ (process_file client fs file_name file_content).calls) := by
  constructor
  · intro client fs file_name file_content ln n rust h1 h2 h3 h4 hw1 hw2
    have hngt : ¬ (n > 2) := by omega
    refine ⟨?_, rfl⟩
    simp [process_file, h1, h2, hngt, h4, save_rust_code, hw1, finish_with_json,
      save_result_to_json, hw2, base_record]
  · intro client fs file_name file_content ln n h1 h2 h3
    have hcalls : (process_file client fs file_name file_content).calls =
        [license_call file_content, copyright_call file_content, count_call file_content,
         extract_call file_content] := by
      rcases hex : extract_functions_with_args client file_content with e | fns
      · simp [process_file, h1, h2, h3, hex, finish_with_json, save_result_to_json]
      · simp [process_file, h1, h2, h3, hex, finish_with_json, save_result_to_json]
        split <;> simp
    refine ⟨hcalls, ?_⟩
    intro code
    rw [hcalls]
    simp [license_call, copyright_call, count_call, extract_call]

/-- Witness for C3: a COPYLEFT file counted at 2 with a successful
translation, on a file system where every write succeeds. -/
theorem C3_copyleft_translation_branch_witness :
    process_file c3_client fs_ok "1.py" "code" =
      ⟨.ok ({ base_record c3_client "1.py" "code" with
                function_count := some 2, rust_code := some "fn foo() -> i32" },
            [rust_code_path "results" "1.py", analysis_json_path "results" "1.py"]),
       [license_call "code", copyright_call "code", count_call "code", rust_call "code"],
       [⟨rust_code_path "results" "1.py", .text "fn foo() -> i32"⟩,
        ⟨analysis_json_path "results" "1.py",
         .jsonDict (result_dict { base_record c3_client "1.py" "code" with
                                    function_count := some 2,
                                    rust_code := some "fn foo() -> i32" })⟩]⟩ ∧
    rust_code_path "results" "1.py" =
      os_path_join "results" (path_stem "1.py" ++ "_rust_functions.rs") :=
  C3_copyleft_translation_branch.1 c3_client fs_ok "1.py" "code"
    (.jstr "GNU GPL v3") 2 "fn foo() -> i32" rfl rfl (by decide) rfl rfl rfl

/-- C4 (divergence run): on a PERMISSIVE file the code only extracts
signatures: it makes no counting call, leaves function_count unset, writes no
separate functions artifact (only the analysis JSON), and when extraction
fails it raises TaskSolverError instead of continuing, as the empty writes
and error outcome of the failing run show. -/
theorem C4_permissive_code_run :
    (process_file c4_client fs_ok "3.py" "code").calls =
      [license_call "code", copyright_call "code", extract_call "code"] ∧
    (process_file c4_client fs_ok "3.py" "code").outcome =
      .ok ({ file_name := "3.py", copyright_holder := .jstr "Brendan Eich",
             license_name := .jstr "MIT License", license_type := .PERMISSIVE,
             functions := some [⟨"hello", 1⟩] },
           ["results/3_analysis.json"]) ∧
    (process_file c4_client fs_ok "3.py" "code").writes.map Artifact.path =
      ["results/3_analysis.json"] ∧
    (process_file c4_fail_client fs_ok "3.py" "code").outcome = .error .taskSolverError ∧
    (process_file c4_fail_client fs_ok "3.py" "code").writes = [] :=
  ⟨rfl, rfl, rfl, rfl, rfl⟩

/-- C5 (divergence run): on a COPYLEFT file counted at 4 with two extracted
signatures (End-to-end scenario B of the spec), the code writes only the
analysis JSON: no {stem}_functions.json artifact exists anywhere in the run,
even though the extracted list is non-empty; no translation call is made. -/
theorem C5_copyleft_extraction_code_run :
    (process_file c5_client fs_ok "2.py" "code").outcome =
      .ok ({ file_name := "2.py", copyright_holder := .jstr "Guido Musk",
             license_name := .jstr "GNU GPL v3", license_type := .COPYLEFT,
             function_count := some 4,
             functions := some [⟨"foo", 0⟩, ⟨"bar", 1⟩] },
           ["results/2_analysis.json"]) ∧
    (process_file c5_client fs_ok "2.py" "code").writes.map Artifact.path =
      ["results/2_analysis.json"] ∧
    (process_file c5_client fs_ok "2.py" "code").calls =
      [license_call "code", copyright_call "code", count_call "code", extract_call "code"] :=
  ⟨rfl, rfl, rfl⟩

/-- Counterexample to C6: on a gateway failing every call, function counting
raises FunctionCounterError instead of returning the safe default 0, and
signature extraction raises TaskSolverError instead of returning the empty
sequence. -/
theorem C6_counterexample_counter_raises :
    count_functions failing_client "x" = .error .functionCounterError ∧
    count_functions failing_client "x" ≠ .ok 0 ∧
    extract_functions_with_args failing_client "x" = .error .taskSolverError ∧
    extract_functions_with_args failing_client "x" ≠ .ok [] := by
  refine ⟨rfl, ?_, rfl, ?_⟩
  · rw [show count_functions failing_client "x" = .error .functionCounterError from rfl]
    simp
  · rw [show extract_functions_with_args failing_client "x" =
        .error .taskSolverError from rfl]
    simp

/-- C6 as amended: on a failing gateway call, license detection degrades to
(UNKNOWN, "Unknown License") and copyright extraction to "Unknown" without
raising, but function counting raises FunctionCounterError and signature
extraction raises TaskSolverError. -/
theorem C6_amended_service_failure_modes :
    ∀ (client : LlmClient) (file_content : String),
      (client.generate_response (license_prompt file_content) license_system_prompt =
          .error .llmClientError →
        get_license_type client file_content = (.UNKNOWN, .jstr "Unknown License")) ∧
      (client.generate_response (copyright_prompt file_content) copyright_system_prompt =
          .error .llmClientError →
        extract_copyright_holder client file_content = .jstr "Unknown") ∧
      (client.generate_response (count_prompt file_content) count_system_prompt =
          .error .llmClientError →
        count_functions client file_content = .error .functionCounterError) ∧
      (client.generate_response (extract_prompt file_content) extract_system_prompt =
          .error .llmClientError →
        extract_functions_with_args client file_content = .error .taskSolverError) := by
  intro client file_content
  refine ⟨fun h => ?_, fun h => ?_, fun h => ?_, fun h => ?_⟩
  · simp [get_license_type, h]
  · simp [extract_copyright_holder, h]
  · simp [count_functions, h]
  · simp [extract_functions_with_args, h]

/-- Witness for the amended C6: the all-failing gateway on a concrete
content. -/
theorem C6_amended_service_failure_modes_witness :
    get_license_type failing_client "x" = (.UNKNOWN, .jstr "Unknown License") ∧
    extract_copyright_holder failing_client "x" = .jstr "Unknown" ∧
    count_functions failing_client "x" = .error .functionCounterError ∧
    extract_functions_with_args failing_client "x" = .error .taskSolverError :=
  ⟨(C6_amended_service_failure_modes failing_client "x").1 rfl,
   (C6_amended_service_failure_modes failing_client "x").2.1 rfl,
   (C6_amended_service_failure_modes failing_client "x").2.2.1 rfl,
   (C6_amended_service_failure_modes failing_client "x").2.2.2 rfl⟩

/-- Counterexample to C7: the pipeline finalizes (and would serialize) a
record whose function_count is 5 while its functions list has length 1,
without raising anything: the dataclass record of the solver has no
validation. -/
theorem C7_counterexample_mismatched_record :
    (process_file c7_client fs_ok "1.py" "code").outcome =
      .ok ({ file_name := "1.py", copyright_holder := .jstr "John Doe",
             license_name := .jstr "GNU GPL v3", license_type := .COPYLEFT,
             function_count := some 5, functions := some [⟨"foo", 0⟩] },
           ["results/1_analysis.json"]) ∧
    (([(⟨"foo", 0⟩ : FunctionInfo)].length : Int) ≠ 5) :=
  ⟨rfl, by decide⟩

/-- C7 as amended: the pydantic FileAnalysisResult model of
src/data_models/analysis_models.py does enforce the invariant: constructing
it with mismatched function_count and functions raises ValidationError, and
every successfully constructed model with both fields present has
len(functions) = function_count. (The pipeline itself uses the unvalidated
dataclass instead.) -/
theorem C7_amended_model_validator :
    (∀ (file_name copyright_holder license_name : String) (license_type : LicenseType)
        (n : Int) (fs : List analysis_models.FunctionInfo),
      (fs.length : Int) ≠ n →
      analysis_models.mk_FileAnalysisResult file_name copyright_holder license_name
        license_type (some n) (some fs) = .error .validationError) ∧
    (∀ (file_name copyright_holder license_name : String) (license_type : LicenseType)
        (function_count : Option Int)
        (functions : Option (List analysis_models.FunctionInfo))
        (r : analysis_models.FileAnalysisResult),
      analysis_models.mk_FileAnalysisResult file_name copyright_holder license_name
        license_type function_count functions = .ok r →
      ∀ (n : Int) (fns : List analysis_models.FunctionInfo),
        r.function_count = some n → r.functions = some fns →
        (fns.length : Int) = n) := by
  constructor
  · intro fn ch ln lt n fs h
    simp [analysis_models.mk_FileAnalysisResult, h]
  · intro fn ch ln lt fc fns r hmk n fns2 h1 h2
    rcases fc with _ | n0 <;> rcases fns with _ | fs0 <;>
      simp only [analysis_models.mk_FileAnalysisResult, Except.ok.injEq] at hmk
    · subst hmk
      simp at h1
    · subst hmk
      simp at h1
    · split at hmk
      · simp at hmk
      · simp only [Except.ok.injEq] at hmk
        subst hmk
        simp at h2
    · split at hmk
      · simp at hmk
      · split at hmk
        · simp at hmk
        · simp only [Except.ok.injEq] at hmk
          subst hmk
          simp at h1 h2
          subst h1
          subst h2
          omega

/-- Witness for the amended C7: a concrete mismatched construction raises
ValidationError. -/
theorem C7_amended_model_validator_witness :
    analysis_models.mk_FileAnalysisResult "a.py" "X" "MIT License" .PERMISSIVE
      (some 2) (some [⟨"foo", 0⟩]) = .error .validationError :=
  C7_amended_model_validator.1 "a.py" "X" "MIT License" .PERMISSIVE 2
    [⟨"foo", 0⟩] (by decide)

/-- The behavior of the unconditional save_result_to_json tail: it raises
exactly when the write of {stem}_analysis.json fails, and on success the last
artifact written is that JSON. -/
theorem finish_with_json_spec (fs : Fs) (r : FileAnalysisResult)
    (calls : List GatewayCall) (writes : List Artifact) (saved : List String) :
    ((finish_with_json fs "results" r calls writes saved).outcome =
        .error .taskSolverError ↔
      fs.write_ok (analysis_json_path "results" r.file_name) = false) ∧
    (fs.write_ok (analysis_json_path "results" r.file_name) = true →
      ∃ d, (finish_with_json fs "results" r calls writes saved).writes.getLast? =
        some ⟨analysis_json_path "results" r.file_name, .jsonDict d⟩) := by
  cases hw : fs.write_ok (analysis_json_path "results" r.file_name)
  · simp [finish_with_json, save_result_to_json, hw]
  · refine ⟨by simp [finish_with_json, save_result_to_json, hw],
      fun _ => ⟨result_dict r, ?_⟩⟩
    simp [finish_with_json, save_result_to_json, hw]

/-- Counterexample to C1: a single analysis-service failure (here signature
extraction failing on a PERMISSIVE file) aborts the run with TaskSolverError
and nothing is written at all, although every file write (in particular the
primary JSON write) would have succeeded. -/
theorem C1_counterexample_service_failure_aborts :
    (process_file c1_client fs_ok "1.py" "code").outcome = .error .taskSolverError ∧
    (process_file c1_client fs_ok "1.py" "code").writes = [] ∧
    fs_ok.write_ok (analysis_json_path "results" "1.py") = true :=
  ⟨rfl, rfl, rfl⟩

/-- C1 as amended: license-detection and copyright-extraction failures never
abort a run, but the branch steps are not failure-isolated; when every branch
step the run performs succeeds (signature extraction on PERMISSIVE; counting,
then extraction or translation plus the rust write on COPYLEFT; nothing on
PROPRIETARY/UNKNOWN), the primary {stem}_analysis.json write is always
attempted, it is the last artifact written when it succeeds, and its failure
is the only error surfaced to the caller. -/
theorem C1_amended_failure_semantics :
    ∀ (client : LlmClient) (fs : Fs) (file_name file_content : String),
      branch_steps_ok client fs file_name file_content = true →
      ((process_file client fs file_name file_content).outcome =
          .error .taskSolverError ↔
        fs.write_ok (analysis_json_path "results" file_name) = false) ∧
      (fs.write_ok (analysis_json_path "results" file_name) = true →
        ∃ d, (process_file client fs file_name file_content).writes.getLast? =
          some ⟨analysis_json_path "results" file_name, .jsonDict d⟩) := by
  intro client fs file_name file_content h
  cases hlt : (get_license_type client file_content).1 with
  | PERMISSIVE =>
    simp only [branch_steps_ok, hlt] at h
    rcases hex : extract_functions_with_args client file_content with e | fns
    · rw [hex] at h
      simp [except_ok] at h
    · have hp : process_file client fs file_name file_content =
          finish_with_json fs "results"
            { base_record client file_name file_content with functions := some fns }
            [license_call file_content, copyright_call file_content,
             extract_call file_content] [] [] := by
        simp [process_file, hlt, hex, base_record]
      rw [hp]
      exact finish_with_json_spec fs _ _ _ _
  | COPYLEFT =>
    simp only [branch_steps_ok, hlt] at h
    rcases hcnt : count_functions client file_content with e | nn
    · rw [hcnt] at h
      simp at h
    · simp only [hcnt] at h
      by_cases hgt : nn > 2
      · rw [if_pos hgt] at h
        rcases hex : extract_functions_with_args client file_content with e | fns
        · rw [hex] at h
          simp [except_ok] at h
        · have hp : process_file client fs file_name file_content =
              finish_with_json fs "results"
                { base_record client file_name file_content with
                    function_count := some nn, functions := some fns }
                [license_call file_content, copyright_call file_content,
                 count_call file_content, extract_call file_content] [] [] := by
            simp [process_file, hlt, hcnt, hgt, hex, base_record]
          rw [hp]
          exact finish_with_json_spec fs _ _ _ _
      · rw [if_neg hgt] at h
        rcases hrw : client.rewrite_to_rust file_content with e | rust
        · rw [hrw] at h
          simp [except_ok] at h
        · rw [hrw] at h
          simp only [except_ok, Bool.true_and] at h
          have hp : process_file client fs file_name file_content =
              finish_with_json fs "results"
                { base_record client file_name file_content with
                    function_count := some nn, rust_code := some rust }
                [license_call file_content, copyright_call file_content,
                 count_call file_content, rust_call file_content]
                [⟨rust_code_path "results" file_name, .text rust⟩]
                [rust_code_path "results" file_name] := by
            simp [process_file, hlt, hcnt, hgt, hrw, save_rust_code, h, base_record]
          rw [hp]
          exact finish_with_json_spec fs _ _ _ _
  | PROPRIETARY =>
    have hp : process_file client fs file_name file_content =
        finish_with_json fs "results" (base_record client file_name file_content)
          [license_call file_content, copyright_call file_content] [] [] := by
      simp [process_file, hlt, base_record]
    rw [hp]
    exact finish_with_json_spec fs _ _ _ _
  | UNKNOWN =>
    have hp : process_file client fs file_name file_content =
        finish_with_json fs "results" (base_record client file_name file_content)
          [license_call file_content, copyright_call file_content] [] [] := by
      simp [process_file, hlt, base_record]
    rw [hp]
    exact finish_with_json_spec fs _ _ _ _

/-- Witness for the amended C1: the all-failing gateway takes the UNKNOWN
branch, where every branch step trivially succeeds. -/
theorem C1_amended_failure_semantics_witness :
    ((process_file failing_client fs_ok "a.py" "x").outcome =
        .error .taskSolverError ↔
      fs_ok.write_ok (analysis_json_path "results" "a.py") = false) ∧
    (fs_ok.write_ok (analysis_json_path "results" "a.py") = true →
      ∃ d, (process_file failing_client fs_ok "a.py" "x").writes.getLast? =
        some ⟨analysis_json_path "results" "a.py", .jsonDict d⟩) :=
  C1_amended_failure_semantics failing_client fs_ok "a.py" "x" rfl
